import Mathlib

/-!
Verification of the multi-tenancy core of the DED inventory system.

The development shallowly embeds the tenant resolution, provisioning and
context-switching subsystem:

* the tenant store locator in app/tenant_manager.py
  (TenantManager._schema_name, TenantManager.get_tenant_db_path),
* the provisioning and seeding path
  (TenantManager.create_tenant_database, TenantManager.initialize_tenant_data),
* the login sequence in app/auth/multi_tenant_login.py
  (authenticate_with_license),
* the per-request middleware in app/tenant_middleware.py
  (switch_tenant_database), and
* the administrative license operations in license_control.py
  (LicenseControl.extend_license).

Python strings are modelled as lists of characters where character-level
operations matter (the locator) and as Lean strings elsewhere; database and
file-system state is modelled as explicit record-of-lists state threaded
through the operations; exceptions are modelled as explicit boolean fault
flags in an environment record, and the code's try/except/finally structure
is reflected in the control flow of the embedded functions.
-/

namespace DED

/-! ### Tenant store locator: TenantManager in app/tenant_manager.py

A Python string is embedded as a list of characters. str.replace of the
one-character pattern used by the source is a per-character map, and
str.lower is a per-character lowering. -/

/-- Models the Python expression license_key.replace(Chr.dash, Chr.underscore)
as used by TenantManager: every dash is replaced by an underscore. -/
def pyReplaceDash (s : List Char) : List Char :=
  s.map (fun c => if c = '-' then '_' else c)

/-- Models license_key.lower() character by character. -/
def pyLower (s : List Char) : List Char :=
  s.map Char.toLower

/-- Models TenantManager._schema_name: the string tenant_ followed by the
license key with dashes replaced by underscores and lowered. -/
def schema_name (key : List Char) : List Char :=
  ("tenant_".toList) ++ pyLower (pyReplaceDash key)

/-- Models TenantManager.get_tenant_db_path: os.path.join of the tenants
directory (a parameter here; the source computes it from the app location)
with the file name tenant_ + key.replace(dash, underscore) + .db. -/
def get_tenant_db_path (dir key : List Char) : List Char :=
  dir ++ '/' :: (("tenant_".toList) ++ pyReplaceDash key ++ (".db".toList))

/-- The normalization the source's sanitization performs on an identifier:
unify the separator (dash becomes underscore) and fold case. Two license
keys are equivalent identifiers precisely when they normalize alike. -/
def normalizeKey (key : List Char) : List Char :=
  pyLower (pyReplaceDash key)

/-! ### Master-registry license records (app/models_license.py rows)

A row of the licenses table as both the login sequence and the
administrative control panel read it. expires_at is a nullable timestamp,
modelled as an optional number of seconds; null means perpetual. -/

structure License where
  id : Nat
  license_key : String
  client_name : Option String
  client_company : Option String
  client_email : Option String
  client_phone : Option String
  admin_username : Option String
  admin_password_hash : Option String
  license_type : Option String
  is_active : Bool
  is_suspended : Bool
  suspension_reason : Option String
  expires_at : Option Nat
  max_users : Nat
deriving DecidableEq

/-- The expiry test lic.expires_at and lic.expires_at < datetime.utcnow():
a null expires_at never counts as expired. -/
def licenseExpired (lic : License) (now : Nat) : Bool :=
  match lic.expires_at with
  | some t => t < now
  | none => false

/-- Python truthiness of an optional string column: None and the empty
string are falsy. -/
def truthyStr : Option String → Bool
  | some s => s != ""
  | none => false

/-! ### Tenant store contents

The rows initialize_tenant_data reads and writes: roles, branches, users
and accounts, with autoincrement ids handed out in insertion order. -/

structure Role where
  id : Nat
  name : String
  name_ar : String
  description : String
deriving DecidableEq

structure Branch where
  id : Nat
  name : String
  name_en : String
  code : String
  is_active : Bool
deriving DecidableEq

structure TUser where
  id : Nat
  username : String
  email : String
  full_name : Option String
  phone : Option String
  is_active : Bool
  is_admin : Bool
  role_id : Nat
  branch_id : Nat
  password_hash : String
  last_login : Option Nat
deriving DecidableEq

structure Account where
  id : Nat
  code : String
  name : String
  name_en : String
  account_type : String
  is_system : Bool
deriving DecidableEq

structure TenantStore where
  roles : List Role
  branches : List Branch
  users : List TUser
  accounts : List Account
  nextId : Nat
deriving DecidableEq

/-- A freshly created tenant store: all tables present and empty. -/
def emptyStore : TenantStore := ⟨[], [], [], [], 1⟩

/-! ### Seeding: the data path of TenantManager.initialize_tenant_data -/

/-- Models sess.query(Role).filter_by(name=n).first() being non-None. -/
def hasRole (n : String) (s : TenantStore) : Bool :=
  (s.roles.find? (fun r => r.name == n)).isSome

/-- One role-seeding step: query the role by name, add it if missing. -/
def addRoleIfMissing (n nar descr : String) (s : TenantStore) : TenantStore :=
  if hasRole n s then s
  else { s with roles := s.roles ++ [⟨s.nextId, n, nar, descr⟩],
                nextId := s.nextId + 1 }

/-- Models sess.query(Branch).filter_by(code=c).first() being non-None. -/
def hasBranch (c : String) (s : TenantStore) : Bool :=
  (s.branches.find? (fun b => b.code == c)).isSome

/-- The branch-seeding step: query the branch by code, add it if missing. -/
def addBranchIfMissing (nm nen c : String) (s : TenantStore) : TenantStore :=
  if hasBranch c s then s
  else { s with branches := s.branches ++ [⟨s.nextId, nm, nen, c, true⟩],
                nextId := s.nextId + 1 }

/-- Models sess.query(Account).filter_by(code=c).first() being non-None. -/
def hasAccount (c : String) (s : TenantStore) : Bool :=
  (s.accounts.find? (fun a => a.code == c)).isSome

/-- One chart-of-accounts seeding step: add the account if its code is absent. -/
def addAccountIfMissing (c nm nen ty : String) (s : TenantStore) : TenantStore :=
  if hasAccount c s then s
  else { s with accounts := s.accounts ++ [⟨s.nextId, c, nm, nen, ty, true⟩],
                nextId := s.nextId + 1 }

/-- Models sess.query(User).filter_by(username=u).first() being non-None. -/
def hasUsername (u : String) (s : TenantStore) : Bool :=
  (s.users.find? (fun x => x.username == u)).isSome

/-- Models sess.query(User).filter_by(email=e).first() being non-None. -/
def hasEmail (e : String) (s : TenantStore) : Bool :=
  (s.users.find? (fun x => x.email == e)).isSome

/-- The id the source reads off admin_role after the flush. -/
def roleIdOf (n : String) (s : TenantStore) : Nat :=
  ((s.roles.find? (fun r => r.name == n)).map Role.id).getD 0

/-- The id the source reads off main_branch after the flush. -/
def branchIdOf (c : String) (s : TenantStore) : Nat :=
  ((s.branches.find? (fun b => b.code == c)).map Branch.id).getD 0

/-- Models license_obj.client_company or the literal company. -/
def companyOf (lic : License) : String :=
  match lic.client_company with
  | some c => if c == "" then "company" else c
  | none => "company"

/-- Models the Python membership test of the at sign in a string. -/
def containsAt (e : String) : Bool := e.toList.contains '@'

/-- The admin email: client_email when truthy and containing an at sign,
else username at company dot com. -/
def emailFor (uname : String) (lic : License) : String :=
  match lic.client_email with
  | some e => if e != "" && containsAt e then e
              else uname ++ "@" ++ companyOf lic ++ ".com"
  | none => uname ++ "@" ++ companyOf lic ++ ".com"

/-- The username the admin seed uses: license_obj.admin_username, known to
be truthy when read. -/
def adminUname (lic : License) : String := lic.admin_username.getD ""

/-- The email the admin seed uses. -/
def adminEmail (lic : License) : String := emailFor (adminUname lic) lic

/-- The User row the admin seed constructs from the license record. -/
def mkAdminUser (lic : License) (s : TenantStore) : TUser :=
  { id := s.nextId, username := adminUname lic, email := adminEmail lic,
    full_name := lic.client_name, phone := lic.client_phone,
    is_active := true, is_admin := true,
    role_id := roleIdOf "admin" s, branch_id := branchIdOf "MAIN" s,
    password_hash := lic.admin_password_hash.getD "",
    last_login := none }

/-- The admin-user seeding step: only when the license carries truthy admin
credentials, and only when neither the username nor the computed email is
already taken, a single admin user derived from the license is added. -/
def addAdminIfMissing (lic : License) (s : TenantStore) : TenantStore :=
  if truthyStr lic.admin_username && truthyStr lic.admin_password_hash then
    if !hasUsername (adminUname lic) s && !hasEmail (adminEmail lic) s then
      { s with users := s.users ++ [mkAdminUser lic s], nextId := s.nextId + 1 }
    else s
  else s

/-- The seeding body of TenantManager.initialize_tenant_data, in source
order: three roles, the main branch, the admin user, then the five
chart-of-accounts rows, each guarded by a lookup on its natural key. -/
def seedData (lic : License) (s : TenantStore) : TenantStore :=
  let s1 := addRoleIfMissing "admin" "مدير النظام" "Full system access" s
  let s2 := addRoleIfMissing "manager" "مدير" "Manager access" s1
  let s3 := addRoleIfMissing "user" "مستخدم" "Basic user access" s2
  let s4 := addBranchIfMissing "الفرع الرئيسي" "Main Branch" "MAIN" s3
  let s5 := addAdminIfMissing lic s4
  let s6 := addAccountIfMissing "1000" "الأصول" "Assets" "asset" s5
  let s7 := addAccountIfMissing "2000" "الخصوم" "Liabilities" "liability" s6
  let s8 := addAccountIfMissing "3000" "حقوق الملكية" "Equity" "equity" s7
  let s9 := addAccountIfMissing "4000" "الإيرادات" "Revenue" "revenue" s8
  addAccountIfMissing "5000" "المصروفات" "Expenses" "expense" s9

/-- TenantManager.create_tenant_database at the level of the tenant store:
when the storage target already exists it returns success with no change;
otherwise it creates the empty target (schema or file plus tables). -/
def create_tenant_database : Option TenantStore → Option TenantStore
  | some s => some s
  | none => some emptyStore

/-- One provision-then-seed round: create_tenant_database followed by
initialize_tenant_data on the same tenant. -/
def provisionPair (lic : License) (os : Option TenantStore) : Option TenantStore :=
  (create_tenant_database os).map (seedData lic)

/-- The role-seeding stage of seedData as one function. -/
def rolesSeed (s : TenantStore) : TenantStore :=
  addRoleIfMissing "user" "مستخدم" "Basic user access"
    (addRoleIfMissing "manager" "مدير" "Manager access"
      (addRoleIfMissing "admin" "مدير النظام" "Full system access" s))

/-- The branch-seeding stage of seedData. -/
def branchSeed (s : TenantStore) : TenantStore :=
  addBranchIfMissing "الفرع الرئيسي" "Main Branch" "MAIN" s

/-- The chart-of-accounts stage of seedData. -/
def accountsSeed (s : TenantStore) : TenantStore :=
  addAccountIfMissing "5000" "المصروفات" "Expenses" "expense"
    (addAccountIfMissing "4000" "الإيرادات" "Revenue" "revenue"
      (addAccountIfMissing "3000" "حقوق الملكية" "Equity" "equity"
        (addAccountIfMissing "2000" "الخصوم" "Liabilities" "liability"
          (addAccountIfMissing "1000" "الأصول" "Assets" "asset" s))))

/-! ### Login sequence: authenticate_with_license in
app/auth/multi_tenant_login.py

The process-wide active binding is the PostgreSQL search_path of the shared
db.session under the shared-database strategy, and the configured engine
URI under the per-file SQLite strategy; both are modelled by one Binding
value. The tenant stores are a map from license key to store contents;
schema-catalog and file-existence checks are both membership in that map.
Storage exceptions are modelled by boolean fault flags in the environment;
the possibility that writing the session raises RuntimeError outside a
request context (which the source swallows) is the sessionAvailable flag. -/

inductive Binding where
  | master : Binding
  | tenant : String → Binding
deriving DecidableEq

structure SysState where
  binding : Binding
  sessionKey : Option String
  stores : List (String × TenantStore)
  createCalled : Bool
  initCalled : Bool
deriving DecidableEq

structure Env where
  isPostgres : Bool
  now : Nat
  licenses : List License
  verify : String → String → Bool
  sessionAvailable : Bool
  createFails : Bool
  seedRaises : Bool

/-- The distinct user-facing messages authenticate_with_license returns. -/
inductive AuthMsg where
  | licenseNotFound
  | licenseInactive
  | licenseSuspended
  | licenseExpired
  | createFailed
  | initFailed
  | userNotFound
  | wrongPassword
  | accountInactive
  | userLoadFailed
  | success
deriving DecidableEq

def findStore (key : String) (stores : List (String × TenantStore)) :
    Option TenantStore :=
  (stores.find? (fun p => p.1 == key)).map (fun p => p.2)

def setStore (key : String) (t : TenantStore)
    (stores : List (String × TenantStore)) : List (String × TenantStore) :=
  stores.map (fun p => if p.1 == key then (p.1, t) else p)

/-- TenantManager.create_tenant_database as invoked by the login sequence:
ensure the storage target (schema or file) exists and report success, unless
the modelled storage exception fires, in which case the handler catches it
and returns False. -/
def create_tenant_database_call (env : Env) (key : String) (st : SysState) :
    Bool × SysState :=
  let st1 := { st with createCalled := true }
  if env.createFails then (false, st1)
  else
    match findStore key st1.stores with
    | some _ => (true, st1)
    | none => (true, { st1 with stores := (key, emptyStore) :: st1.stores })

/-- TenantManager.initialize_tenant_data as invoked by the login sequence:
run the seeding body inside one transaction; on an exception anywhere during
seeding, the handler catches it, rolls the transaction back (the store keeps
its pre-call contents) and returns False instead of propagating. -/
def initialize_tenant_data (env : Env) (lic : License) (key : String)
    (st : SysState) : Bool × SysState :=
  let st1 := { st with initCalled := true }
  match findStore key st1.stores with
  | none => (false, st1)
  | some store =>
      if env.seedRaises then (false, st1)
      else (true, { st1 with stores := setStore key (seedData lic store) st1.stores })

/-- Step 2 of authenticate_with_license: when the tenant storage target does
not exist yet, provision and seed it; either failure aborts the login with
its own message. -/
def ensureTenant (env : Env) (lic : License) (key : String) (st : SysState) :
    Option AuthMsg × SysState :=
  match findStore key st.stores with
  | some _ => (none, st)
  | none =>
      match create_tenant_database_call env key st with
      | (false, stc) => (some AuthMsg.createFailed, stc)
      | (true, stc) =>
          match initialize_tenant_data env lic key stc with
          | (false, sti) => (some AuthMsg.initFailed, sti)
          | (true, sti) => (none, sti)

/-- Stage 3 of authenticate_with_license: look the user up inside the tenant
store. Under PostgreSQL the source calls TenantManager.switch_schema on the
shared db.session, moving the shared search_path to the tenant schema before
querying; under SQLite it opens a transient engine and session on the tenant
file, queries, and closes both, leaving the process-wide state unchanged. -/
def stage3_lookup (env : Env) (key username : String) (store : TenantStore)
    (st : SysState) : Option TUser × SysState :=
  if env.isPostgres then
    (store.users.find? (fun u => u.username == username),
      { st with binding := Binding.tenant key })
  else
    (store.users.find? (fun u => u.username == username), st)

/-- Record the successful login timestamp on the user row, as stage 4
commits it. -/
def setLastLogin (uid now : Nat) (t : TenantStore) : TenantStore :=
  { t with users := t.users.map (fun u =>
      if u.id == uid then { u with last_login := some now } else u) }

/-- Stage 4 of authenticate_with_license: under SQLite, repoint the shared
engine URI at the tenant file (under PostgreSQL the shared search_path is
already on the tenant schema); write last_login, commit, and reload the user
by id. -/
def stage4_promote (env : Env) (key : String) (u : TUser) (st : SysState) :
    Option TUser × SysState :=
  let st4 := if env.isPostgres then st else { st with binding := Binding.tenant key }
  match findStore key st4.stores with
  | none => (none, st4)
  | some store =>
      let store2 := setLastLogin u.id env.now store
      (store2.users.find? (fun x => x.id == u.id),
        { st4 with stores := setStore key store2 st4.stores })

/-- The login sequence authenticate_with_license. Returns the
(success, message, user) triple of the source together with the final
process state. -/
def authenticate_with_license (env : Env) (username password license_key : String)
    (st0 : SysState) : (Bool × AuthMsg × Option TUser) × SysState :=
  let st1 := { st0 with binding := Binding.master }
  match env.licenses.find? (fun l => l.license_key == license_key) with
  | none => ((false, AuthMsg.licenseNotFound, none), st1)
  | some lic =>
      if !lic.is_active then ((false, AuthMsg.licenseInactive, none), st1)
      else if lic.is_suspended then ((false, AuthMsg.licenseSuspended, none), st1)
      else if licenseExpired lic env.now then ((false, AuthMsg.licenseExpired, none), st1)
      else
        match ensureTenant env lic license_key st1 with
        | (some msg, st2) => ((false, msg, none), st2)
        | (none, st2) =>
            match findStore license_key st2.stores with
            | none => ((false, AuthMsg.userNotFound, none), st2)
            | some store =>
                match stage3_lookup env license_key username store st2 with
                | (none, st3) => ((false, AuthMsg.userNotFound, none), st3)
                | (some u, st3) =>
                    if !(env.verify password u.password_hash) then
                      ((false, AuthMsg.wrongPassword, none), st3)
                    else if !u.is_active then
                      ((false, AuthMsg.accountInactive, none), st3)
                    else
                      match stage4_promote env license_key u st3 with
                      | (none, st4) => ((false, AuthMsg.userLoadFailed, none), st4)
                      | (some u2, st4) =>
                          let st5 :=
                            if env.sessionAvailable then
                              { st4 with sessionKey := some license_key }
                            else st4
                          ((true, AuthMsg.success, some u2), st5)

/-! ### Per-request middleware: switch_tenant_database in
app/tenant_middleware.py -/

structure MwEnv where
  isPostgres : Bool
  now : Nat
  licenses : List License
  lookupRaises : Bool

/-- The detached copy of the license's public fields the middleware stores
in g.license_data. -/
structure LicenseSnapshot where
  id : Nat
  license_key : String
  client_name : Option String
  client_email : Option String
  license_type : Option String
  expires_at : Option Nat
  is_active : Bool
  is_suspended : Bool
deriving DecidableEq

def snapshotOf (lic : License) : LicenseSnapshot :=
  ⟨lic.id, lic.license_key, lic.client_name, lic.client_email,
    lic.license_type, lic.expires_at, lic.is_active, lic.is_suspended⟩

/-- How the before_request hook ends: fall through to business logic, return
a redirect, or propagate an exception raised in the try block. -/
inductive MwOutcome where
  | proceed
  | redirectLogin
  | redirectLogout
  | raised
deriving DecidableEq

structure MwState where
  binding : Binding
  sessionKey : Option String
  licenseData : Option LicenseSnapshot
deriving DecidableEq

def EXEMPT_ROUTES : List String :=
  ["/static/", "/auth/login", "/auth/logout", "/auth/register",
    "/security/license", "/security/create_license", "/_debug_toolbar/",
    "/favicon.ico"]

/-- Models request.path.startswith(route). -/
def startsWith (route path : String) : Bool :=
  route.toList.isPrefixOf path.toList

def isExempt (path : String) : Bool :=
  EXEMPT_ROUTES.any (fun r => startsWith r path)

/-- The before_request hook switch_tenant_database. The finally clause of
the source switches the binding to the session tenant's target on every exit
of the try block, so every exit below the session-key check carries
binding := Binding.tenant key. -/
def switch_tenant_database (env : MwEnv) (path : String) (authenticated : Bool)
    (st : MwState) : MwOutcome × MwState :=
  if isExempt path then (MwOutcome.proceed, st)
  else
    match st.sessionKey with
    | none =>
        if authenticated then (MwOutcome.redirectLogout, st)
        else (MwOutcome.redirectLogin, st)
    | some key =>
        let st1 := { st with binding := Binding.master }
        if env.lookupRaises then
          (MwOutcome.raised, { st1 with binding := Binding.tenant key })
        else
          match env.licenses.find? (fun l =>
              l.license_key == key && l.is_active && !l.is_suspended) with
          | none =>
              (MwOutcome.redirectLogin,
                { st1 with sessionKey := none, binding := Binding.tenant key })
          | some lic =>
              if licenseExpired lic env.now then
                (MwOutcome.redirectLogin,
                  { st1 with sessionKey := none, binding := Binding.tenant key })
              else
                (MwOutcome.proceed,
                  { st1 with licenseData := some (snapshotOf lic),
                             binding := Binding.tenant key })

/-! ### Administrative license control: LicenseControl in license_control.py -/

/-- LicenseControl.extend_license: look the row up by key; parse its stored
expiry (null, meaning perpetual, falls back to the current time), add the
given number of days (86400 seconds each), and write the new expiry back to
every row with that key. Returns the success flag of the source's
(bool, message) pair. -/
def extend_license (store : List License) (license_key : String) (days now : Nat) :
    Bool × List License :=
  match store.find? (fun l => l.license_key == license_key) with
  | none => (false, store)
  | some row =>
      let expires_dt := match row.expires_at with
        | some t => t
        | none => now
      let newExpires := expires_dt + days * 86400
      (true, store.map (fun l =>
        if l.license_key == license_key then { l with expires_at := some newExpires }
        else l))

/-! ### Concrete fixtures used to exercise the model on closed inputs -/

/-- A valid, perpetual license with admin seed credentials. -/
def licValid : License :=
  { id := 1, license_key := "LIC-0001", client_name := some "Alice",
    client_company := some "Acme", client_email := some "a@acme.com",
    client_phone := some "555", admin_username := some "admin",
    admin_password_hash := some "secret", license_type := some "standard",
    is_active := true, is_suspended := false, suspension_reason := none,
    expires_at := none, max_users := 5 }

/-- The same license, deactivated. -/
def licInactive : License := { licValid with is_active := false }

/-- The tenant store after one provisioning and seeding round for licValid. -/
def seededStore : TenantStore := seedData licValid emptyStore

/-- A PostgreSQL-strategy environment with no storage faults; the opaque
password verifier is instantiated as plain comparison with the stored hash. -/
def envPG : Env :=
  { isPostgres := true, now := 100, licenses := [licValid],
    verify := fun p h => p == h, sessionAvailable := true,
    createFails := false, seedRaises := false }

/-- The same environment under the SQLite per-file strategy. -/
def envSL : Env := { envPG with isPostgres := false }

/-- SQLite environment in which writing the session raises RuntimeError. -/
def envNoSess : Env := { envSL with sessionAvailable := false }

/-- SQLite environment in which seeding raises a storage exception. -/
def envSeedFail : Env := { envSL with seedRaises := true }

/-- Pre-call process state: bound to master, no session binding, the tenant
store for LIC-0001 already provisioned and seeded. -/
def st0M : SysState :=
  { binding := Binding.master, sessionKey := none,
    stores := [("LIC-0001", seededStore)], createCalled := false,
    initCalled := false }

/-- Pre-call process state with no tenant store provisioned yet. -/
def stEmpty : SysState := { st0M with stores := [] }

/-- A middleware environment whose master registry holds licValid. -/
def envMw : MwEnv :=
  { isPostgres := true, now := 100, licenses := [licValid], lookupRaises := false }

/-- The middleware environment after the license was suspended. -/
def envMwSusp : MwEnv :=
  { envMw with licenses := [{ licValid with is_suspended := true }] }

/-- A request-scoped middleware state bound to master with a session tenant. -/
def stMw : MwState :=
  { binding := Binding.master, sessionKey := some "LIC-0001", licenseData := none }

/-! ### Structural lemmas about the seeding steps -/

theorem seedData_eq (lic : License) (s : TenantStore) :
    seedData lic s = accountsSeed (addAdminIfMissing lic (branchSeed (rolesSeed s))) := rfl

theorem roles_addBranchIfMissing (nm nen c : String) (s : TenantStore) :
    (addBranchIfMissing nm nen c s).roles = s.roles := by
  unfold addBranchIfMissing; split <;> rfl

theorem roles_addAccountIfMissing (c nm nen ty : String) (s : TenantStore) :
    (addAccountIfMissing c nm nen ty s).roles = s.roles := by
  unfold addAccountIfMissing; split <;> rfl

theorem roles_addAdminIfMissing (lic : License) (s : TenantStore) :
    (addAdminIfMissing lic s).roles = s.roles := by
  unfold addAdminIfMissing; split
  · split <;> rfl
  · rfl

theorem branches_addRoleIfMissing (n a d : String) (s : TenantStore) :
    (addRoleIfMissing n a d s).branches = s.branches := by
  unfold addRoleIfMissing; split <;> rfl

theorem branches_addAccountIfMissing (c nm nen ty : String) (s : TenantStore) :
    (addAccountIfMissing c nm nen ty s).branches = s.branches := by
  unfold addAccountIfMissing; split <;> rfl

theorem branches_addAdminIfMissing (lic : License) (s : TenantStore) :
    (addAdminIfMissing lic s).branches = s.branches := by
  unfold addAdminIfMissing; split
  · split <;> rfl
  · rfl

theorem users_addRoleIfMissing (n a d : String) (s : TenantStore) :
    (addRoleIfMissing n a d s).users = s.users := by
  unfold addRoleIfMissing; split <;> rfl

theorem users_addBranchIfMissing (nm nen c : String) (s : TenantStore) :
    (addBranchIfMissing nm nen c s).users = s.users := by
  unfold addBranchIfMissing; split <;> rfl

theorem users_addAccountIfMissing (c nm nen ty : String) (s : TenantStore) :
    (addAccountIfMissing c nm nen ty s).users = s.users := by
  unfold addAccountIfMissing; split <;> rfl

theorem accounts_addRoleIfMissing (n a d : String) (s : TenantStore) :
    (addRoleIfMissing n a d s).accounts = s.accounts := by
  unfold addRoleIfMissing; split <;> rfl

theorem accounts_addBranchIfMissing (nm nen c : String) (s : TenantStore) :
    (addBranchIfMissing nm nen c s).accounts = s.accounts := by
  unfold addBranchIfMissing; split <;> rfl

theorem accounts_addAdminIfMissing (lic : License) (s : TenantStore) :
    (addAdminIfMissing lic s).accounts = s.accounts := by
  unfold addAdminIfMissing; split
  · split <;> rfl
  · rfl

theorem hasRole_ext (n : String) {s t : TenantStore} (h : s.roles = t.roles) :
    hasRole n s = hasRole n t := by
  unfold hasRole; rw [h]

theorem hasBranch_ext (c : String) {s t : TenantStore} (h : s.branches = t.branches) :
    hasBranch c s = hasBranch c t := by
  unfold hasBranch; rw [h]

theorem hasAccount_ext (c : String) {s t : TenantStore} (h : s.accounts = t.accounts) :
    hasAccount c s = hasAccount c t := by
  unfold hasAccount; rw [h]

theorem hasRole_addRoleIfMissing_self (n a d : String) (s : TenantStore) :
    hasRole n (addRoleIfMissing n a d s) = true := by
  by_cases h : hasRole n s
  · unfold addRoleIfMissing; rw [if_pos h]; exact h
  · unfold addRoleIfMissing; rw [if_neg h]
    unfold hasRole
    simp [List.find?_append, Option.isSome_or, List.find?_singleton]

theorem hasRole_addRoleIfMissing_mono (n m a d : String) (s : TenantStore)
    (h : hasRole n s = true) : hasRole n (addRoleIfMissing m a d s) = true := by
  unfold addRoleIfMissing; split
  · exact h
  · unfold hasRole at h ⊢
    simp only [List.find?_append, Option.isSome_or]
    simp [h]

theorem addRoleIfMissing_of_has (n a d : String) (s : TenantStore)
    (h : hasRole n s = true) : addRoleIfMissing n a d s = s := by
  unfold addRoleIfMissing; rw [if_pos h]

theorem hasBranch_addBranchIfMissing_self (nm nen c : String) (s : TenantStore) :
    hasBranch c (addBranchIfMissing nm nen c s) = true := by
  by_cases h : hasBranch c s
  · unfold addBranchIfMissing; rw [if_pos h]; exact h
  · unfold addBranchIfMissing; rw [if_neg h]
    unfold hasBranch
    simp [List.find?_append, Option.isSome_or, List.find?_singleton]

theorem addBranchIfMissing_of_has (nm nen c : String) (s : TenantStore)
    (h : hasBranch c s = true) : addBranchIfMissing nm nen c s = s := by
  unfold addBranchIfMissing; rw [if_pos h]

theorem hasAccount_addAccountIfMissing_self (c nm nen ty : String) (s : TenantStore) :
    hasAccount c (addAccountIfMissing c nm nen ty s) = true := by
  by_cases h : hasAccount c s
  · unfold addAccountIfMissing; rw [if_pos h]; exact h
  · unfold addAccountIfMissing; rw [if_neg h]
    unfold hasAccount
    simp [List.find?_append, Option.isSome_or, List.find?_singleton]

theorem hasAccount_addAccountIfMissing_mono (c c2 nm nen ty : String) (s : TenantStore)
    (h : hasAccount c s = true) : hasAccount c (addAccountIfMissing c2 nm nen ty s) = true := by
  unfold addAccountIfMissing; split
  · exact h
  · unfold hasAccount at h ⊢
    simp only [List.find?_append, Option.isSome_or]
    simp [h]

theorem addAccountIfMissing_of_has (c nm nen ty : String) (s : TenantStore)
    (h : hasAccount c s = true) : addAccountIfMissing c nm nen ty s = s := by
  unfold addAccountIfMissing; rw [if_pos h]

/-- When a store's users table already reflects one admin-seeding pass, a
further admin-seeding pass changes nothing: the seed is guarded by the
username and email natural keys. -/
theorem addAdminIfMissing_skip (lic : License) (t r : TenantStore)
    (h : t.users = (addAdminIfMissing lic r).users) :
    addAdminIfMissing lic t = t := by
  by_cases hc : (truthyStr lic.admin_username && truthyStr lic.admin_password_hash) = true
  · by_cases ht : (!hasUsername (adminUname lic) t && !hasEmail (adminEmail lic) t) = true
    · exfalso
      by_cases hr : (!hasUsername (adminUname lic) r && !hasEmail (adminEmail lic) r) = true
      · have husers : t.users = r.users ++ [mkAdminUser lic r] := by
          simpa [addAdminIfMissing, hc, hr] using h
        have hfound : hasUsername (adminUname lic) t = true := by
          unfold hasUsername; rw [husers]
          simp [List.find?_append, Option.isSome_or, List.find?_singleton, mkAdminUser]
        simp [hfound] at ht
      · have husers : t.users = r.users := by
          simpa [addAdminIfMissing, hc, hr] using h
        have h1 : hasUsername (adminUname lic) t = hasUsername (adminUname lic) r := by
          unfold hasUsername; rw [husers]
        have h2 : hasEmail (adminEmail lic) t = hasEmail (adminEmail lic) r := by
          unfold hasEmail; rw [husers]
        rw [h1, h2] at ht
        exact hr ht
    · simp [addAdminIfMissing, hc, ht]
  · simp [addAdminIfMissing, hc]

theorem roles_accountsSeed (s : TenantStore) : (accountsSeed s).roles = s.roles := by
  simp [accountsSeed, roles_addAccountIfMissing]

theorem branches_accountsSeed (s : TenantStore) : (accountsSeed s).branches = s.branches := by
  simp [accountsSeed, branches_addAccountIfMissing]

theorem users_accountsSeed (s : TenantStore) : (accountsSeed s).users = s.users := by
  simp [accountsSeed, users_addAccountIfMissing]

theorem roles_seedData (lic : License) (s : TenantStore) :
    (seedData lic s).roles = (rolesSeed s).roles := by
  rw [seedData_eq, roles_accountsSeed, roles_addAdminIfMissing]
  exact roles_addBranchIfMissing _ _ _ _

theorem branches_seedData (lic : License) (s : TenantStore) :
    (seedData lic s).branches = (branchSeed (rolesSeed s)).branches := by
  rw [seedData_eq, branches_accountsSeed, branches_addAdminIfMissing]

theorem users_seedData (lic : License) (s : TenantStore) :
    (seedData lic s).users = (addAdminIfMissing lic (branchSeed (rolesSeed s))).users := by
  rw [seedData_eq, users_accountsSeed]

theorem hasRole_admin_seedData (lic : License) (s : TenantStore) :
    hasRole "admin" (seedData lic s) = true := by
  rw [hasRole_ext "admin" (roles_seedData lic s)]
  unfold rolesSeed
  exact hasRole_addRoleIfMissing_mono _ _ _ _ _
    (hasRole_addRoleIfMissing_mono _ _ _ _ _ (hasRole_addRoleIfMissing_self _ _ _ _))

theorem hasRole_manager_seedData (lic : License) (s : TenantStore) :
    hasRole "manager" (seedData lic s) = true := by
  rw [hasRole_ext "manager" (roles_seedData lic s)]
  unfold rolesSeed
  exact hasRole_addRoleIfMissing_mono _ _ _ _ _ (hasRole_addRoleIfMissing_self _ _ _ _)

theorem hasRole_user_seedData (lic : License) (s : TenantStore) :
    hasRole "user" (seedData lic s) = true := by
  rw [hasRole_ext "user" (roles_seedData lic s)]
  unfold rolesSeed
  exact hasRole_addRoleIfMissing_self _ _ _ _

theorem hasBranch_main_seedData (lic : License) (s : TenantStore) :
    hasBranch "MAIN" (seedData lic s) = true := by
  rw [hasBranch_ext "MAIN" (branches_seedData lic s)]
  unfold branchSeed
  exact hasBranch_addBranchIfMissing_self _ _ _ _

theorem hasAccount_accountsSeed_1000 (t : TenantStore) :
    hasAccount "1000" (accountsSeed t) = true := by
  unfold accountsSeed
  exact hasAccount_addAccountIfMissing_mono _ _ _ _ _ _
    (hasAccount_addAccountIfMissing_mono _ _ _ _ _ _
      (hasAccount_addAccountIfMissing_mono _ _ _ _ _ _
        (hasAccount_addAccountIfMissing_mono _ _ _ _ _ _
          (hasAccount_addAccountIfMissing_self _ _ _ _ _))))

theorem hasAccount_accountsSeed_2000 (t : TenantStore) :
    hasAccount "2000" (accountsSeed t) = true := by
  unfold accountsSeed
  exact hasAccount_addAccountIfMissing_mono _ _ _ _ _ _
    (hasAccount_addAccountIfMissing_mono _ _ _ _ _ _
      (hasAccount_addAccountIfMissing_mono _ _ _ _ _ _
        (hasAccount_addAccountIfMissing_self _ _ _ _ _)))

theorem hasAccount_accountsSeed_3000 (t : TenantStore) :
    hasAccount "3000" (accountsSeed t) = true := by
  unfold accountsSeed
  exact hasAccount_addAccountIfMissing_mono _ _ _ _ _ _
    (hasAccount_addAccountIfMissing_mono _ _ _ _ _ _
      (hasAccount_addAccountIfMissing_self _ _ _ _ _))

theorem hasAccount_accountsSeed_4000 (t : TenantStore) :
    hasAccount "4000" (accountsSeed t) = true := by
  unfold accountsSeed
  exact hasAccount_addAccountIfMissing_mono _ _ _ _ _ _
    (hasAccount_addAccountIfMissing_self _ _ _ _ _)

theorem hasAccount_accountsSeed_5000 (t : TenantStore) :
    hasAccount "5000" (accountsSeed t) = true := by
  unfold accountsSeed
  exact hasAccount_addAccountIfMissing_self _ _ _ _ _

/-- Re-running the seeding body on an already-seeded store changes nothing:
every natural-key lookup now succeeds, so every guarded insert is skipped. -/
theorem seedData_idem (lic : License) (s : TenantStore) :
    seedData lic (seedData lic s) = seedData lic s := by
  have F1 := hasRole_admin_seedData lic s
  have F2 := hasRole_manager_seedData lic s
  have F3 := hasRole_user_seedData lic s
  have F4 := hasBranch_main_seedData lic s
  have hroles : rolesSeed (seedData lic s) = seedData lic s := by
    unfold rolesSeed
    rw [addRoleIfMissing_of_has _ _ _ _ F1, addRoleIfMissing_of_has _ _ _ _ F2,
      addRoleIfMissing_of_has _ _ _ _ F3]
  have hbranch : branchSeed (seedData lic s) = seedData lic s := by
    unfold branchSeed
    rw [addBranchIfMissing_of_has _ _ _ _ F4]
  have hadmin : addAdminIfMissing lic (seedData lic s) = seedData lic s :=
    addAdminIfMissing_skip lic (seedData lic s) (branchSeed (rolesSeed s))
      (users_seedData lic s)
  have h1000 : hasAccount "1000" (seedData lic s) = true := by
    rw [seedData_eq]; exact hasAccount_accountsSeed_1000 _
  have h2000 : hasAccount "2000" (seedData lic s) = true := by
    rw [seedData_eq]; exact hasAccount_accountsSeed_2000 _
  have h3000 : hasAccount "3000" (seedData lic s) = true := by
    rw [seedData_eq]; exact hasAccount_accountsSeed_3000 _
  have h4000 : hasAccount "4000" (seedData lic s) = true := by
    rw [seedData_eq]; exact hasAccount_accountsSeed_4000 _
  have h5000 : hasAccount "5000" (seedData lic s) = true := by
    rw [seedData_eq]; exact hasAccount_accountsSeed_5000 _
  have haccounts : accountsSeed (seedData lic s) = seedData lic s := by
    unfold accountsSeed
    rw [addAccountIfMissing_of_has _ _ _ _ _ h1000, addAccountIfMissing_of_has _ _ _ _ _ h2000,
      addAccountIfMissing_of_has _ _ _ _ _ h3000, addAccountIfMissing_of_has _ _ _ _ _ h4000,
      addAccountIfMissing_of_has _ _ _ _ _ h5000]
  rw [seedData_eq lic (seedData lic s), hroles, hbranch, hadmin, haccounts]

theorem accounts_preSeed (lic : License) (s : TenantStore) :
    (addAdminIfMissing lic (branchSeed (rolesSeed s))).accounts = s.accounts := by
  rw [accounts_addAdminIfMissing]
  unfold branchSeed
  rw [accounts_addBranchIfMissing]
  unfold rolesSeed
  rw [accounts_addRoleIfMissing, accounts_addRoleIfMissing, accounts_addRoleIfMissing]

/-- On a store whose accounts table is empty, the chart-of-accounts stage
inserts exactly the five account-type rows, in order. -/
theorem accountsSeed_map_code_of_nil (t : TenantStore) (h : t.accounts = []) :
    (accountsSeed t).accounts.map Account.code = ["1000", "2000", "3000", "4000", "5000"] := by
  simp [accountsSeed, addAccountIfMissing, hasAccount, h]

/-- On a store whose users table is empty, the admin-seeding step leaves at
most one user. -/
theorem users_length_addAdminIfMissing (lic : License) (t : TenantStore)
    (h : t.users = []) : (addAdminIfMissing lic t).users.length ≤ 1 := by
  unfold addAdminIfMissing
  split
  · split
    · simp [h]
    · simp [h]
  · simp [h]

theorem users_preBranch (s : TenantStore) :
    (branchSeed (rolesSeed s)).users = s.users := by
  unfold branchSeed
  rw [users_addBranchIfMissing]
  unfold rolesSeed
  rw [users_addRoleIfMissing, users_addRoleIfMissing, users_addRoleIfMissing]

/-! ### Count lemmas: each seed item is inserted only when its natural key
is absent -/

theorem countP_addRoleIfMissing_self (n a d : String) (s : TenantStore) :
    (addRoleIfMissing n a d s).roles.countP (fun r => r.name == n) =
      max 1 (s.roles.countP (fun r => r.name == n)) := by
  by_cases h : hasRole n s
  · rw [addRoleIfMissing_of_has _ _ _ _ h]
    have hpos : 0 < s.roles.countP (fun r => r.name == n) := by
      unfold hasRole at h
      rw [List.find?_isSome] at h
      exact List.countP_pos_iff.mpr h
    omega
  · unfold addRoleIfMissing
    rw [if_neg h]
    have hzero : s.roles.countP (fun r => r.name == n) = 0 := by
      rw [List.countP_eq_zero]
      intro x hx hpx
      apply h
      unfold hasRole
      rw [List.find?_isSome]
      exact Exists.intro x (And.intro hx hpx)
    simp [List.countP_append, hzero]

theorem countP_addRoleIfMissing_other (n m a d : String) (s : TenantStore)
    (hmn : (m == n) = false) :
    (addRoleIfMissing m a d s).roles.countP (fun r => r.name == n) =
      s.roles.countP (fun r => r.name == n) := by
  unfold addRoleIfMissing
  split
  · rfl
  · simp [List.countP_append, hmn]

theorem countP_addBranchIfMissing_self (nm nen c : String) (s : TenantStore) :
    (addBranchIfMissing nm nen c s).branches.countP (fun b => b.code == c) =
      max 1 (s.branches.countP (fun b => b.code == c)) := by
  by_cases h : hasBranch c s
  · rw [addBranchIfMissing_of_has _ _ _ _ h]
    have hpos : 0 < s.branches.countP (fun b => b.code == c) := by
      unfold hasBranch at h
      rw [List.find?_isSome] at h
      exact List.countP_pos_iff.mpr h
    omega
  · unfold addBranchIfMissing
    rw [if_neg h]
    have hzero : s.branches.countP (fun b => b.code == c) = 0 := by
      rw [List.countP_eq_zero]
      intro x hx hpx
      apply h
      unfold hasBranch
      rw [List.find?_isSome]
      exact Exists.intro x (And.intro hx hpx)
    simp [List.countP_append, hzero]

theorem countP_addAccountIfMissing_self (c nm nen ty : String) (s : TenantStore) :
    (addAccountIfMissing c nm nen ty s).accounts.countP (fun a => a.code == c) =
      max 1 (s.accounts.countP (fun a => a.code == c)) := by
  by_cases h : hasAccount c s
  · rw [addAccountIfMissing_of_has _ _ _ _ _ h]
    have hpos : 0 < s.accounts.countP (fun a => a.code == c) := by
      unfold hasAccount at h
      rw [List.find?_isSome] at h
      exact List.countP_pos_iff.mpr h
    omega
  · unfold addAccountIfMissing
    rw [if_neg h]
    have hzero : s.accounts.countP (fun a => a.code == c) = 0 := by
      rw [List.countP_eq_zero]
      intro x hx hpx
      apply h
      unfold hasAccount
      rw [List.find?_isSome]
      exact Exists.intro x (And.intro hx hpx)
    simp [List.countP_append, hzero]

theorem countP_addAccountIfMissing_other (c c2 nm nen ty : String) (s : TenantStore)
    (hcc : (c2 == c) = false) :
    (addAccountIfMissing c2 nm nen ty s).accounts.countP (fun a => a.code == c) =
      s.accounts.countP (fun a => a.code == c) := by
  unfold addAccountIfMissing
  split
  · rfl
  · simp [List.countP_append, hcc]

theorem countP_roles_seedData_admin (lic : License) (s : TenantStore) :
    (seedData lic s).roles.countP (fun r => r.name == "admin") =
      max 1 (s.roles.countP (fun r => r.name == "admin")) := by
  rw [roles_seedData]
  unfold rolesSeed
  rw [countP_addRoleIfMissing_other _ _ _ _ _ (by decide),
    countP_addRoleIfMissing_other _ _ _ _ _ (by decide),
    countP_addRoleIfMissing_self]

theorem countP_roles_seedData_manager (lic : License) (s : TenantStore) :
    (seedData lic s).roles.countP (fun r => r.name == "manager") =
      max 1 (s.roles.countP (fun r => r.name == "manager")) := by
  rw [roles_seedData]
  unfold rolesSeed
  rw [countP_addRoleIfMissing_other _ _ _ _ _ (by decide),
    countP_addRoleIfMissing_self,
    countP_addRoleIfMissing_other _ _ _ _ _ (by decide)]

theorem countP_roles_seedData_user (lic : License) (s : TenantStore) :
    (seedData lic s).roles.countP (fun r => r.name == "user") =
      max 1 (s.roles.countP (fun r => r.name == "user")) := by
  rw [roles_seedData]
  unfold rolesSeed
  rw [countP_addRoleIfMissing_self,
    countP_addRoleIfMissing_other _ _ _ _ _ (by decide),
    countP_addRoleIfMissing_other _ _ _ _ _ (by decide)]

theorem branches_rolesSeed (s : TenantStore) : (rolesSeed s).branches = s.branches := by
  unfold rolesSeed
  rw [branches_addRoleIfMissing, branches_addRoleIfMissing, branches_addRoleIfMissing]

theorem countP_branches_seedData_main (lic : License) (s : TenantStore) :
    (seedData lic s).branches.countP (fun b => b.code == "MAIN") =
      max 1 (s.branches.countP (fun b => b.code == "MAIN")) := by
  rw [branches_seedData]
  unfold branchSeed
  rw [countP_addBranchIfMissing_self, branches_rolesSeed]

theorem countP_accounts_seedData_1000 (lic : License) (s : TenantStore) :
    (seedData lic s).accounts.countP (fun a => a.code == "1000") =
      max 1 (s.accounts.countP (fun a => a.code == "1000")) := by
  rw [seedData_eq]
  unfold accountsSeed
  rw [countP_addAccountIfMissing_other _ _ _ _ _ _ (by decide),
    countP_addAccountIfMissing_other _ _ _ _ _ _ (by decide),
    countP_addAccountIfMissing_other _ _ _ _ _ _ (by decide),
    countP_addAccountIfMissing_other _ _ _ _ _ _ (by decide),
    countP_addAccountIfMissing_self, accounts_preSeed]

theorem countP_accounts_seedData_2000 (lic : License) (s : TenantStore) :
    (seedData lic s).accounts.countP (fun a => a.code == "2000") =
      max 1 (s.accounts.countP (fun a => a.code == "2000")) := by
  rw [seedData_eq]
  unfold accountsSeed
  rw [countP_addAccountIfMissing_other _ _ _ _ _ _ (by decide),
    countP_addAccountIfMissing_other _ _ _ _ _ _ (by decide),
    countP_addAccountIfMissing_other _ _ _ _ _ _ (by decide),
    countP_addAccountIfMissing_self,
    countP_addAccountIfMissing_other _ _ _ _ _ _ (by decide), accounts_preSeed]

theorem countP_accounts_seedData_3000 (lic : License) (s : TenantStore) :
    (seedData lic s).accounts.countP (fun a => a.code == "3000") =
      max 1 (s.accounts.countP (fun a => a.code == "3000")) := by
  rw [seedData_eq]
  unfold accountsSeed
  rw [countP_addAccountIfMissing_other _ _ _ _ _ _ (by decide),
    countP_addAccountIfMissing_other _ _ _ _ _ _ (by decide),
    countP_addAccountIfMissing_self,
    countP_addAccountIfMissing_other _ _ _ _ _ _ (by decide),
    countP_addAccountIfMissing_other _ _ _ _ _ _ (by decide), accounts_preSeed]

theorem countP_accounts_seedData_4000 (lic : License) (s : TenantStore) :
    (seedData lic s).accounts.countP (fun a => a.code == "4000") =
      max 1 (s.accounts.countP (fun a => a.code == "4000")) := by
  rw [seedData_eq]
  unfold accountsSeed
  rw [countP_addAccountIfMissing_other _ _ _ _ _ _ (by decide),
    countP_addAccountIfMissing_self,
    countP_addAccountIfMissing_other _ _ _ _ _ _ (by decide),
    countP_addAccountIfMissing_other _ _ _ _ _ _ (by decide),
    countP_addAccountIfMissing_other _ _ _ _ _ _ (by decide), accounts_preSeed]

theorem countP_accounts_seedData_5000 (lic : License) (s : TenantStore) :
    (seedData lic s).accounts.countP (fun a => a.code == "5000") =
      max 1 (s.accounts.countP (fun a => a.code == "5000")) := by
  rw [seedData_eq]
  unfold accountsSeed
  rw [countP_addAccountIfMissing_self,
    countP_addAccountIfMissing_other _ _ _ _ _ _ (by decide),
    countP_addAccountIfMissing_other _ _ _ _ _ _ (by decide),
    countP_addAccountIfMissing_other _ _ _ _ _ _ (by decide),
    countP_addAccountIfMissing_other _ _ _ _ _ _ (by decide), accounts_preSeed]

end DED

/-- C1: the tenant store locator is collision-free. For license keys A and B
that are distinct after normalization of case and separator characters, the
derived schema name and the derived tenant database file path both differ:
sanitization never merges distinct identifiers into one storage target. -/
theorem C1_locator_collision_free (A B : List Char)
    (h : DED.normalizeKey A ≠ DED.normalizeKey B) :
    DED.schema_name A ≠ DED.schema_name B ∧
      ∀ dir, DED.get_tenant_db_path dir A ≠ DED.get_tenant_db_path dir B := by
  constructor
  · intro hEq
    exact h (List.append_cancel_left hEq)
  · intro dir hEq
    have h1 := List.append_cancel_left hEq
    have h2 : ("tenant_".toList) ++ DED.pyReplaceDash A ++ (".db".toList) =
        ("tenant_".toList) ++ DED.pyReplaceDash B ++ (".db".toList) := by
      simpa using h1
    have h3 := List.append_cancel_right h2
    have h4 := List.append_cancel_left h3
    exact h (congrArg DED.pyLower h4)

/-- Witness for C1 at the concrete keys LIC-0001 and LIC-0002. -/
theorem C1_locator_collision_free_witness :
    DED.normalizeKey ("LIC-0001".toList) ≠ DED.normalizeKey ("LIC-0002".toList) ∧
      DED.schema_name ("LIC-0001".toList) ≠ DED.schema_name ("LIC-0002".toList) :=
  ⟨by decide, (C1_locator_collision_free ("LIC-0001".toList) ("LIC-0002".toList)
    (by decide)).1⟩

open DED

/-- C3: provisioning and seeding are idempotent. One create-then-seed round
followed by a second one gives the same final store as one round; the fresh
seeded state holds exactly the roles admin, manager and user, one MAIN
branch, the five account-type rows, and at most one admin user, with no
duplicates; each seed item is inserted only when no row with its natural key
exists (the count of rows with each seed key becomes max 1 of its old
value), so re-running the seeding on a partially-seeded store converges. -/
theorem C3_provisioning_idempotent (lic : License) :
    (∀ os : Option TenantStore,
      provisionPair lic (provisionPair lic os) = provisionPair lic os) ∧
    (∀ s : TenantStore, seedData lic (seedData lic s) = seedData lic s) ∧
    ((seedData lic emptyStore).roles.map Role.name = ["admin", "manager", "user"]) ∧
    ((seedData lic emptyStore).branches.map Branch.code = ["MAIN"]) ∧
    ((seedData lic emptyStore).accounts.map Account.code =
      ["1000", "2000", "3000", "4000", "5000"]) ∧
    ((seedData lic emptyStore).users.length ≤ 1) ∧
    (∀ s : TenantStore, (seedData lic s).roles.countP (fun r => r.name == "admin") =
      max 1 (s.roles.countP (fun r => r.name == "admin"))) ∧
    (∀ s : TenantStore, (seedData lic s).roles.countP (fun r => r.name == "manager") =
      max 1 (s.roles.countP (fun r => r.name == "manager"))) ∧
    (∀ s : TenantStore, (seedData lic s).roles.countP (fun r => r.name == "user") =
      max 1 (s.roles.countP (fun r => r.name == "user"))) ∧
    (∀ s : TenantStore, (seedData lic s).branches.countP (fun b => b.code == "MAIN") =
      max 1 (s.branches.countP (fun b => b.code == "MAIN"))) ∧
    (∀ s : TenantStore, (seedData lic s).accounts.countP (fun a => a.code == "1000") =
      max 1 (s.accounts.countP (fun a => a.code == "1000"))) ∧
    (∀ s : TenantStore, (seedData lic s).accounts.countP (fun a => a.code == "2000") =
      max 1 (s.accounts.countP (fun a => a.code == "2000"))) ∧
    (∀ s : TenantStore, (seedData lic s).accounts.countP (fun a => a.code == "3000") =
      max 1 (s.accounts.countP (fun a => a.code == "3000"))) ∧
    (∀ s : TenantStore, (seedData lic s).accounts.countP (fun a => a.code == "4000") =
      max 1 (s.accounts.countP (fun a => a.code == "4000"))) ∧
    (∀ s : TenantStore, (seedData lic s).accounts.countP (fun a => a.code == "5000") =
      max 1 (s.accounts.countP (fun a => a.code == "5000"))) := by
  refine ⟨?_, seedData_idem lic, ?_, ?_, ?_, ?_,
    countP_roles_seedData_admin lic, countP_roles_seedData_manager lic,
    countP_roles_seedData_user lic, countP_branches_seedData_main lic,
    countP_accounts_seedData_1000 lic, countP_accounts_seedData_2000 lic,
    countP_accounts_seedData_3000 lic, countP_accounts_seedData_4000 lic,
    countP_accounts_seedData_5000 lic⟩
  · intro os
    cases os with
    | none =>
        simp only [provisionPair, create_tenant_database, Option.map]
        rw [seedData_idem]
    | some s =>
        simp only [provisionPair, create_tenant_database, Option.map]
        rw [seedData_idem]
  · rw [roles_seedData]
    decide
  · rw [branches_seedData]
    decide
  · rw [seedData_eq]
    exact accountsSeed_map_code_of_nil _ ((accounts_preSeed lic emptyStore).trans rfl)
  · rw [users_seedData]
    exact users_length_addAdminIfMissing lic _ ((users_preBranch emptyStore).trans rfl)

/-- C2: license gating. When the submitted license record is inactive, or
suspended, or carries a non-null expiry earlier than the current time,
authenticate_with_license fails before any tenant storage is touched:
neither create_tenant_database nor initialize_tenant_data is invoked. -/
theorem C2_invalid_license_no_provisioning (env : Env)
    (username password license_key : String) (st0 : SysState) (lic : License)
    (hfind : env.licenses.find? (fun l => l.license_key == license_key) = some lic)
    (hbad : lic.is_active = false ∨ lic.is_suspended = true ∨
      licenseExpired lic env.now = true)
    (hc : st0.createCalled = false) (hi : st0.initCalled = false) :
    ((authenticate_with_license env username password license_key st0).1.1 = false) ∧
    ((authenticate_with_license env username password license_key st0).2.createCalled
      = false) ∧
    ((authenticate_with_license env username password license_key st0).2.initCalled
      = false) := by
  rcases hbad with h | h | h
  · simp [authenticate_with_license, hfind, h, hc, hi]
  · cases ha : lic.is_active with
    | false => simp [authenticate_with_license, hfind, ha, hc, hi]
    | true => simp [authenticate_with_license, hfind, ha, h, hc, hi]
  · cases ha : lic.is_active with
    | false => simp [authenticate_with_license, hfind, ha, hc, hi]
    | true =>
        cases hs : lic.is_suspended with
        | true => simp [authenticate_with_license, hfind, ha, hs, hc, hi]
        | false => simp [authenticate_with_license, hfind, ha, hs, h, hc, hi]

/-- Witness for C2: a concrete inactive license fails login and leaves both
provisioning entry points uninvoked. -/
theorem C2_invalid_license_no_provisioning_witness :
    (Env.licenses { envSL with licenses := [licInactive] }).find?
      (fun l => l.license_key == "LIC-0001") = some licInactive ∧
    licInactive.is_active = false ∧
    ((authenticate_with_license { envSL with licenses := [licInactive] }
      "admin" "secret" "LIC-0001" stEmpty).1.1 = false) ∧
    ((authenticate_with_license { envSL with licenses := [licInactive] }
      "admin" "secret" "LIC-0001" stEmpty).2.createCalled = false) ∧
    ((authenticate_with_license { envSL with licenses := [licInactive] }
      "admin" "secret" "LIC-0001" stEmpty).2.initCalled = false) := by
  refine ⟨by decide, by decide, ?_⟩
  exact C2_invalid_license_no_provisioning { envSL with licenses := [licInactive] }
    "admin" "secret" "LIC-0001" stEmpty licInactive (by decide)
    (Or.inl (by decide)) (by decide) (by decide)

/-- C4 (amended): stage 3 of the login sequence uses a transient handle and
leaves the process-wide active binding unchanged under the per-file SQLite
strategy only; under the shared-database PostgreSQL strategy it moves the
shared db.session's search_path to the tenant schema before credentials are
confirmed. -/
theorem C4_stage3_binding (env : Env) (key username : String)
    (store : TenantStore) (st : SysState) :
    (env.isPostgres = false →
      stage3_lookup env key username store st =
        (store.users.find? (fun u => u.username == username), st)) ∧
    (env.isPostgres = true →
      (stage3_lookup env key username store st).2.binding = Binding.tenant key) := by
  constructor
  · intro h
    simp [stage3_lookup, h]
  · intro h
    simp [stage3_lookup, h]

/-- Witness for C4 at a concrete SQLite environment and a concrete
PostgreSQL environment. -/
theorem C4_stage3_binding_witness :
    envSL.isPostgres = false ∧
    stage3_lookup envSL "LIC-0001" "admin" seededStore st0M =
      (seededStore.users.find? (fun u => u.username == "admin"), st0M) ∧
    envPG.isPostgres = true ∧
    (stage3_lookup envPG "LIC-0001" "admin" seededStore st0M).2.binding =
      Binding.tenant "LIC-0001" :=
  ⟨rfl, (C4_stage3_binding envSL "LIC-0001" "admin" seededStore st0M).1 rfl,
    rfl, (C4_stage3_binding envPG "LIC-0001" "admin" seededStore st0M).2 rfl⟩

/-- Counterexample to C4 as stated: under the PostgreSQL strategy, stage 3
changes the process-wide active binding (the shared session's search_path)
from master to the tenant schema. -/
theorem C4_stage3_binding_counterexample :
    st0M.binding = Binding.master ∧
    (stage3_lookup envPG "LIC-0001" "admin" seededStore st0M).2.binding ≠
      st0M.binding := by
  constructor
  · rfl
  · decide

/-- C5 (amended): a login attempt with a valid license, an existing tenant
store, an existing username and a wrong password returns the
invalid-credentials failure and creates no session tenant binding; under the
per-file SQLite strategy the active binding is left at master, but under the
shared-database PostgreSQL strategy it is left on the tenant schema that
stage 3 switched to. -/
theorem C5_wrong_password (env : Env) (username password license_key : String)
    (st0 : SysState) (lic : License) (store : TenantStore) (u : TUser)
    (hfind : env.licenses.find? (fun l => l.license_key == license_key) = some lic)
    (hact : lic.is_active = true) (hsus : lic.is_suspended = false)
    (hexp : licenseExpired lic env.now = false)
    (hstore : findStore license_key st0.stores = some store)
    (huser : store.users.find? (fun x => x.username == username) = some u)
    (hpw : env.verify password u.password_hash = false) :
    ((authenticate_with_license env username password license_key st0).1 =
      (false, AuthMsg.wrongPassword, none)) ∧
    ((authenticate_with_license env username password license_key st0).2.sessionKey =
      st0.sessionKey) ∧
    (env.isPostgres = false →
      (authenticate_with_license env username password license_key st0).2.binding =
        Binding.master) ∧
    (env.isPostgres = true →
      (authenticate_with_license env username password license_key st0).2.binding =
        Binding.tenant license_key) := by
  cases hpg : env.isPostgres with
  | false =>
      simp [authenticate_with_license, ensureTenant, stage3_lookup,
        hfind, hact, hsus, hexp, hstore, huser, hpw, hpg]
  | true =>
      simp [authenticate_with_license, ensureTenant, stage3_lookup,
        hfind, hact, hsus, hexp, hstore, huser, hpw, hpg]

/-- Witness for C5 at the concrete SQLite environment: wrong password fails
with no session binding, and the binding stays at master. -/
theorem C5_wrong_password_witness :
    envSL.verify "wrong" "secret" = false ∧
    ((authenticate_with_license envSL "admin" "wrong" "LIC-0001" st0M).1 =
      (false, AuthMsg.wrongPassword, none)) ∧
    ((authenticate_with_license envSL "admin" "wrong" "LIC-0001" st0M).2.sessionKey =
      st0M.sessionKey) ∧
    ((authenticate_with_license envSL "admin" "wrong" "LIC-0001" st0M).2.binding =
      Binding.master) := by
  have h := C5_wrong_password envSL "admin" "wrong" "LIC-0001" st0M licValid
    seededStore (seededStore.users.get ⟨0, by decide⟩)
    (by decide) (by decide) (by decide) (by decide) (by decide) (by decide) (by decide)
  exact ⟨by decide, h.1, h.2.1, h.2.2.1 rfl⟩

/-- Counterexample to C5 as stated: under the PostgreSQL strategy the wrong
password failure leaves the shared binding on the tenant schema, which is
neither master nor the pre-call binding. -/
theorem C5_wrong_password_counterexample :
    ((authenticate_with_license envPG "admin" "wrong" "LIC-0001" st0M).1 =
      (false, AuthMsg.wrongPassword, none)) ∧
    ((authenticate_with_license envPG "admin" "wrong" "LIC-0001" st0M).2.binding =
      Binding.tenant "LIC-0001") ∧
    Binding.tenant "LIC-0001" ≠ Binding.master ∧
    st0M.binding = Binding.master := by
  refine ⟨by decide, by decide, by decide, rfl⟩

/-- C6: for every non-exempt request carrying a session tenant identifier,
the middleware's switch-to-tenant step runs on every exit path of the
validation block — the early redirects to login, the exception path out of
the master-registry lookup and snapshot publication, and the fall-through —
so the active binding ends at the session tenant's storage target, never at
the master store. -/
theorem C6_middleware_always_switches (env : MwEnv) (path : String)
    (authenticated : Bool) (st : MwState) (key : String)
    (hx : isExempt path = false) (hk : st.sessionKey = some key) :
    (switch_tenant_database env path authenticated st).2.binding =
      Binding.tenant key := by
  unfold switch_tenant_database
  rw [hx, hk]
  cases hr : env.lookupRaises with
  | true => simp
  | false =>
      simp only [Bool.false_eq_true, if_false]
      cases hf : env.licenses.find? (fun l =>
          l.license_key == key && l.is_active && !l.is_suspended) with
      | none => simp
      | some lic =>
          cases he : licenseExpired lic env.now with
          | true => simp [he]
          | false => simp [he]

/-- Witness for C6 at a concrete non-exempt request: whichever way the
validation goes (here: valid license, fall-through), the binding ends at the
tenant target. -/
theorem C6_middleware_always_switches_witness :
    isExempt "/dashboard" = false ∧ stMw.sessionKey = some "LIC-0001" ∧
    (switch_tenant_database envMw "/dashboard" false stMw).2.binding =
      Binding.tenant "LIC-0001" :=
  ⟨by decide, rfl,
    C6_middleware_always_switches envMw "/dashboard" false stMw "LIC-0001"
      (by decide) rfl⟩

/-- C8: when the session's tenant license is no longer found active and
unsuspended in the master registry, or is expired, the next non-exempt
request clears the session tenant binding and redirects to login instead of
proceeding to business logic. -/
theorem C8_stale_license_cleared (env : MwEnv) (path : String)
    (authenticated : Bool) (st : MwState) (key : String)
    (hx : isExempt path = false) (hk : st.sessionKey = some key)
    (hr : env.lookupRaises = false)
    (hbad : env.licenses.find? (fun l =>
        l.license_key == key && l.is_active && !l.is_suspended) = none ∨
      ∃ lic, env.licenses.find? (fun l =>
        l.license_key == key && l.is_active && !l.is_suspended) = some lic ∧
        licenseExpired lic env.now = true) :
    (switch_tenant_database env path authenticated st).1 = MwOutcome.redirectLogin ∧
    (switch_tenant_database env path authenticated st).2.sessionKey = none := by
  unfold switch_tenant_database
  rw [hx, hk]
  rcases hbad with hb | ⟨lic, hb, hexp⟩
  · simp [hr, hb]
  · simp [hr, hb, hexp]

/-- Witness for C8: a session bound to LIC-0001 whose license has been
suspended is redirected to login with the binding cleared. -/
theorem C8_stale_license_cleared_witness :
    isExempt "/dashboard" = false ∧ stMw.sessionKey = some "LIC-0001" ∧
    (switch_tenant_database envMwSusp "/dashboard" false stMw).1 =
      MwOutcome.redirectLogin ∧
    (switch_tenant_database envMwSusp "/dashboard" false stMw).2.sessionKey =
      none := by
  refine ⟨by decide, rfl, ?_⟩
  exact C8_stale_license_cleared envMwSusp "/dashboard" false stMw "LIC-0001"
    (by decide) rfl rfl (Or.inl (by decide))

/-- C7: an exception during seeding is caught by initialize_tenant_data,
which rolls the partial transaction back (the store keeps its pre-call
contents) and reports False instead of propagating, and
authenticate_with_license converts that False into the provisioning-failed
login failure instead of crashing. -/
theorem C7_seed_failure_caught (env : Env) (lic : License) (key : String)
    (username password license_key : String) (st0 : SysState)
    (hraise : env.seedRaises = true)
    (hfind : env.licenses.find? (fun l => l.license_key == license_key) = some lic)
    (hact : lic.is_active = true) (hsus : lic.is_suspended = false)
    (hexp : licenseExpired lic env.now = false)
    (hnostore : findStore license_key st0.stores = none)
    (hcreate : env.createFails = false) :
    (∀ st : SysState, initialize_tenant_data env lic key st =
      (false, { st with initCalled := true })) ∧
    (authenticate_with_license env username password license_key st0).1 =
      (false, AuthMsg.initFailed, none) := by
  constructor
  · intro st
    unfold initialize_tenant_data
    cases hfs : findStore key st.stores with
    | none => simp [hfs]
    | some store => simp [hfs, hraise]
  · have hfs2 : findStore license_key ((license_key, emptyStore) :: st0.stores) =
        some emptyStore := by
      simp [findStore]
    simp [authenticate_with_license, ensureTenant, create_tenant_database_call,
      initialize_tenant_data, hfind, hact, hsus, hexp, hnostore, hcreate, hraise, hfs2]

/-- Witness for C7: with a storage fault during seeding, a first login on a
fresh tenant reports the initialization failure as a normal login failure. -/
theorem C7_seed_failure_caught_witness :
    envSeedFail.seedRaises = true ∧
    (∀ st : SysState, initialize_tenant_data envSeedFail licValid "LIC-0001" st =
      (false, { st with initCalled := true })) ∧
    (authenticate_with_license envSeedFail "admin" "secret" "LIC-0001" stEmpty).1 =
      (false, AuthMsg.initFailed, none) := by
  have h := C7_seed_failure_caught envSeedFail licValid "LIC-0001"
    "admin" "secret" "LIC-0001" stEmpty rfl (by decide) (by decide) (by decide)
    (by decide) (by decide) rfl
  exact ⟨rfl, h.1, h.2⟩

/-- C10: extending a perpetual license makes it expiring. When the row is
present in the master store with a null expires_at, extend_license reports
success and every row with that key now carries the expiry now plus the
given number of days. -/
theorem C10_extend_perpetual (store : List License) (license_key : String)
    (days now : Nat) (row : License)
    (hfind : store.find? (fun l => l.license_key == license_key) = some row)
    (hperp : row.expires_at = none) :
    (extend_license store license_key days now).1 = true ∧
    (∃ l ∈ (extend_license store license_key days now).2,
      l.license_key = license_key) ∧
    (∀ l ∈ (extend_license store license_key days now).2,
      l.license_key = license_key → l.expires_at = some (now + days * 86400)) := by
  have hrowkey : row.license_key = license_key := by
    have hp := List.find?_some hfind
    simpa using hp
  have hmem : row ∈ store := List.mem_of_find?_eq_some hfind
  unfold extend_license
  rw [hfind]
  simp only [hperp]
  refine ⟨by simp, ?_, ?_⟩
  · refine ⟨_, List.mem_map_of_mem _ hmem, ?_⟩
    simp [hrowkey]
  · intro l hl hkl
    rw [List.mem_map] at hl
    obtain ⟨x, hx, hfx⟩ := hl
    by_cases hxk : x.license_key = license_key
    · rw [← hfx]
      simp [hxk]
    · rw [← hfx] at hkl
      have hxb : (x.license_key == license_key) = false := by
        simp [hxk]
      rw [hxb] at hkl
      simp at hkl
      exact absurd hkl hxk

/-- Witness for C10: extending the perpetual LIC-0001 by 30 days from time
1000 succeeds and stamps the expiry 1000 plus 30 days. -/
theorem C10_extend_perpetual_witness :
    ([licValid].find? (fun l => l.license_key == "LIC-0001") = some licValid) ∧
    licValid.expires_at = none ∧
    (extend_license [licValid] "LIC-0001" 30 1000).1 = true ∧
    (∀ l ∈ (extend_license [licValid] "LIC-0001" 30 1000).2,
      l.license_key = "LIC-0001" → l.expires_at = some (1000 + 30 * 86400)) := by
  have h := C10_extend_perpetual [licValid] "LIC-0001" 30 1000 licValid
    (by decide) rfl
  exact ⟨by decide, rfl, h.1, h.2.2⟩

/-- C9 (amended): for every login attempt reported successful whose session
write does not raise (a request context is available), the durable session
tenant binding is persisted: the session holds the submitted license key
when the success result is returned. When the session write raises
RuntimeError the source swallows it and returns success without the
binding. -/
theorem C9_success_persists_session (env : Env)
    (username password license_key : String) (st0 : SysState)
    (hsess : env.sessionAvailable = true)
    (hsucc : (authenticate_with_license env username password license_key st0).1.1 =
      true) :
    (authenticate_with_license env username password license_key st0).2.sessionKey =
      some license_key := by
  unfold authenticate_with_license at hsucc ⊢
  cases hfind : env.licenses.find? (fun l => l.license_key == license_key) with
  | none => simp [hfind] at hsucc
  | some lic =>
      simp only [hfind] at hsucc ⊢
      cases ha : lic.is_active with
      | false => simp [ha] at hsucc
      | true =>
          cases hs : lic.is_suspended with
          | true => simp [ha, hs] at hsucc
          | false =>
              cases he : licenseExpired lic env.now with
              | true => simp [ha, hs, he] at hsucc
              | false =>
                  simp only [ha, hs, he, Bool.not_true, Bool.not_false,
                    Bool.false_eq_true, if_false, if_true] at hsucc ⊢
                  rcases hens : ensureTenant env lic license_key
                      { st0 with binding := Binding.master } with ⟨msg?, st2⟩
                  cases msg? with
                  | some msg => simp [hens] at hsucc
                  | none =>
                      simp only [hens] at hsucc ⊢
                      cases hfs : findStore license_key st2.stores with
                      | none => simp [hfs] at hsucc
                      | some store =>
                          simp only [hfs] at hsucc ⊢
                          rcases hst3 : stage3_lookup env license_key username store st2
                            with ⟨u?, st3⟩
                          cases u? with
                          | none => simp [hst3] at hsucc
                          | some u =>
                              simp only [hst3] at hsucc ⊢
                              cases hv : env.verify password u.password_hash with
                              | false => simp [hv] at hsucc
                              | true =>
                                  cases hua : u.is_active with
                                  | false => simp [hv, hua] at hsucc
                                  | true =>
                                      simp only [hv, hua, Bool.not_true,
                                        Bool.false_eq_true, if_false] at hsucc ⊢
                                      rcases hst4 : stage4_promote env license_key u st3
                                        with ⟨u2?, st4⟩
                                      cases u2? with
                                      | none => simp [hst4] at hsucc
                                      | some u2 =>
                                          simp only [hst4] at hsucc ⊢
                                          simp [hsess]

/-- Witness for C9: a concrete successful login under SQLite with the
session available persists the tenant binding. -/
theorem C9_success_persists_session_witness :
    envSL.sessionAvailable = true ∧
    (authenticate_with_license envSL "admin" "secret" "LIC-0001" st0M).1.1 = true ∧
    (authenticate_with_license envSL "admin" "secret" "LIC-0001" st0M).2.sessionKey =
      some "LIC-0001" :=
  ⟨rfl, by decide,
    C9_success_persists_session envSL "admin" "secret" "LIC-0001" st0M rfl (by decide)⟩

/-- Counterexample to C9 as stated: when the session write raises (no
request context), the source swallows the RuntimeError and reports success
while the session tenant binding is never set. -/
theorem C9_success_persists_session_counterexample :
    (authenticate_with_license envNoSess "admin" "secret" "LIC-0001" st0M).1.1 =
      true ∧
    (authenticate_with_license envNoSess "admin" "secret" "LIC-0001" st0M).2.sessionKey
      ≠ some "LIC-0001" := by
  constructor
  · decide
  · decide
